import Mathlib

/-!
Verification of the MinIO disk-cache coordinator (`cacheObjects`, file
`cmd/disk-cache.go` of the repository, provided as `src/unnamed/part_000`).

The coordinator's control flow is embedded shallowly: the outcomes of the
primitives it calls (the per-drive `diskCache` operations, the backend
function fields, the namespace-lock acquisitions) are inputs, and every
embedded operation returns, besides its result, a trace of the observable
effects it issued (backend calls, drive operations, lock acquisitions and
releases, reader closes, spawned background tasks).  The routing functions
`getCacheLoc` / `getCacheToLoc` / `hashIndex` and the predicates
`isCacheExclude` and `skipCache` are translated from the source; helpers
whose defining files are not part of the provided sources (`cacheControl`
parsing, `crcHashMod`, `pathJoin`, `wildcard.MatchSimple`,
`backendDownError`) are modelled from the specification and marked so.
-/

namespace MinioCache

/-- Decidable equality on `Except`, used to evaluate concrete runs. -/
instance {ε α : Type} [DecidableEq ε] [DecidableEq α] : DecidableEq (Except ε α) :=
  fun a b =>
    match a, b with
    | .ok x, .ok y =>
      if h : x = y then .isTrue (by rw [h]) else .isFalse (by simp [h])
    | .error x, .error y =>
      if h : x = y then .isTrue (by rw [h]) else .isFalse (by simp [h])
    | .ok _, .error _ => .isFalse (by simp)
    | .error _, .ok _ => .isFalse (by simp)

/-- Error taxonomy visible to the coordinator: `ObjectNotFound` and
`BackendDown` are the typed backend errors it inspects, `lockTimeout` is the
namespace-lock deadline error, `other` stands for any further error value. -/
inductive ApiErr
  | objectNotFound
  | backendDown
  | lockTimeout
  | other (code : Nat)
  deriving DecidableEq, Repr

/-- Modelled from the spec: parsed HTTP cache directives of an object
(`cacheControl` is defined in a source file not provided).  Only the fields
the coordinator consults are kept: `max-age` seconds and an absolute
`Expires` instant, each optional. -/
structure cacheControl where
  maxAge : Option Nat
  expiry : Option Nat
  deriving DecidableEq, Repr

/-- Modelled from the spec: a cache-control value is empty when no directive
was present. -/
def cacheControl.isEmpty (cc : cacheControl) : Bool :=
  cc.maxAge.isNone && cc.expiry.isNone

/-- Modelled from the spec: an entry is fresh when `max-age=N` is present and
`now - modTime < N`, or `Expires` is present and `now < Expires`; otherwise
it is stale.  Time is in seconds since an arbitrary origin; the implicit
wall clock of the source is the explicit argument `now`. -/
def cacheControl.isStale (cc : cacheControl) (modTime now : Nat) : Bool :=
  let freshByAge := match cc.maxAge with
    | some n => decide (now - modTime < n)
    | none => false
  let freshByExp := match cc.expiry with
    | some e => decide (now < e)
    | none => false
  !(freshByAge || freshByExp)

/-- Object metadata as the coordinator consumes it: the upstream validator
`etag`, the last-modified time, the size, the parsed cache directives, and
the result of the `IsCacheable` admission predicate (whose definition lives
outside the provided sources, hence carried as a field). -/
structure ObjectInfo where
  etag : String
  modTime : Nat
  size : Int
  cc : cacheControl
  cacheable : Bool
  deriving DecidableEq, Repr

/-- Modelled from the spec: `cacheControlOpts` parses the stored headers of
an object into a `cacheControl`; the parsed form is carried on the object
info itself, so the parser is the projection. -/
def cacheControlOpts (oi : ObjectInfo) : cacheControl := oi.cc

/-- A `GetObjectReader` as the coordinator sees it: an identity (so distinct
readers can be told apart) together with the `ObjInfo` it carries. -/
structure GetObjectReader where
  rid : Nat
  objInfo : ObjectInfo
  deriving DecidableEq, Repr

/-- One cache drive (`diskCache`) as the router consults it: its online
state and the set of fingerprints for which `Exists` answers true. -/
structure DCache where
  did : Nat
  online : Bool
  objs : List (String × String)
  deriving DecidableEq, Repr

/-- Translation of `diskCache.Exists(ctx, bucket, object)` as consulted by
the router and by `DeleteObject`: membership of the fingerprint. -/
def DCache.existsObj (d : DCache) (bucket object : String) : Bool :=
  d.objs.contains (bucket, object)

/-- Observable effects the coordinator issues, in program order.  Lock
events come from `c.nsMutex` namespace locks, `drv*` events are operations
against the located cache drive, `bk*` events are calls of the backend
function fields, and the `spawn*` events mark detached background tasks
(whose own effects are not part of the synchronous trace). -/
inductive Ev
  | lockRAcq | lockRRel | lockWAcq | lockWRel
  | drvGet | drvStat | drvPut | drvDelete
  | drvUpdateMeta (newInfo oldInfo : ObjectInfo)
  | drvExists
  | bkGetNInfo | bkGetInfo | bkDelete
  | readerClose | purgeSignal | spawnRangeFill | spawnTeePut
  deriving DecidableEq, Repr

/-- Router error: `errDiskNotFound`, returned when no usable drive exists. -/
inductive CacheLocErr
  | errDiskNotFound
  deriving DecidableEq, Repr

/-- The `cacheObjects` state the translated control flow depends on: the
slice of cache drives (`nil` slots allowed), the exclusion patterns, and the
migration flag guarded in the source by `migMutex`. -/
structure CacheObjects where
  cache : List (Option DCache)
  exclude : List String
  migrating : Bool

/-- Outcomes of the backend function fields for the current call: the result
a call of `GetObjectNInfoFn`, `GetObjectInfoFn`, or `DeleteObjectFn` would
produce (`none` meaning a nil error for the delete). -/
structure BackendEnv where
  getNInfoRes : Except ApiErr GetObjectReader
  getInfoRes : Except ApiErr ObjectInfo
  deleteRes : Option ApiErr

/-- Outcomes of the located drive's operations and of the namespace-lock
acquisitions for the current call: `rlockOk` / `wlockOk` tell whether
`GetRLock` / `GetLock` succeed within `globalObjectTimeout`, the remaining
fields are the results of `dcache.Get`, `dcache.Stat`, `dcache.Delete`,
`dcache.Put`, `dcache.diskUsageLow` and `dcache.diskAvailable`. -/
structure DriveEnv where
  rlockOk : Bool
  wlockOk : Bool
  getRes : Except ApiErr GetObjectReader
  statRes : Except ApiErr ObjectInfo
  delRes : Option ApiErr
  putRes : Option ApiErr
  usageLow : Bool
  availFor : Int → Bool

/-- Modelled from the spec: `backendDownError` recognises the backend-down
error kind (the source helper, not among the provided files, additionally
folds network failures into the same kind). -/
def backendDownErr : ApiErr → Bool
  | .backendDown => true
  | _ => false

/-- Modelled from the spec: `wildcard.MatchSimple`, glob matching in which
only the star is special and matches any (possibly empty) sequence. -/
def matchSimple : List Char → List Char → Bool
  | [], [] => true
  | '*' :: ps, [] => matchSimple ps []
  | '*' :: ps, c :: cs => matchSimple ps (c :: cs) || matchSimple ('*' :: ps) cs
  | p :: ps, c :: cs => p == c && matchSimple ps cs
  | _ :: _, [] => false
  | [], _ :: _ => false
  termination_by ps cs => (cs.length, ps.length)

/-- The path separator constant of the source. -/
def SlashSeparator : String := "/"

/-- Translation of `cacheObjects.isCacheExclude`: directories (names ending
in the separator) are excluded, as is any fingerprint whose rendering
`bucket/object` matches one of the configured patterns. -/
def isCacheExclude (exclude : List String) (bucket object : String) : Bool :=
  (match object.data.getLast? with
    | some c => c == '/'
    | none => false) ||
    exclude.any fun pattern =>
      matchSimple pattern.data (bucket ++ SlashSeparator ++ object).data

/-- Translation of `cacheObjects.skipCache`: reads the `migrating` flag
(the source guards the read with `migMutex`; the mutex has no content in
this sequential embedding). -/
def skipCache (c : CacheObjects) : Bool := c.migrating

/-- Modelled from the spec: `pathJoin` of the two fingerprint components
with the separator, as used by `hashIndex`. -/
def pathJoin (bucket object : String) : String :=
  bucket ++ SlashSeparator ++ object

/-- One bit of the reflected CRC-32 (IEEE) computation: shift right and
conditionally fold in the reversed polynomial. -/
def crc32Step (crc : Nat) : Nat :=
  if crc % 2 = 1 then (crc / 2) ^^^ 0xEDB88320 else crc / 2

/-- Fold one byte into a running CRC-32 value. -/
def crc32Byte (crc b : Nat) : Nat := crc32Step^[8] (crc ^^^ b % 256)

/-- Modelled from the spec: the IEEE CRC-32 checksum of a byte sequence. -/
def crc32 (bytes : List Nat) : Nat :=
  (bytes.foldl crc32Byte 0xFFFFFFFF) ^^^ 0xFFFFFFFF

/-- UTF-8 encoding of one character, as a list of byte values. -/
def charBytes (c : Char) : List Nat :=
  let n := c.toNat
  if n < 0x80 then [n]
  else if n < 0x800 then
    [0xC0 ||| (n >>> 6), 0x80 ||| (n &&& 0x3F)]
  else if n < 0x10000 then
    [0xE0 ||| (n >>> 12), 0x80 ||| ((n >>> 6) &&& 0x3F), 0x80 ||| (n &&& 0x3F)]
  else
    [0xF0 ||| (n >>> 18), 0x80 ||| ((n >>> 12) &&& 0x3F),
      0x80 ||| ((n >>> 6) &&& 0x3F), 0x80 ||| (n &&& 0x3F)]

/-- UTF-8 bytes of a string. -/
def utf8Bytes (s : String) : List Nat := s.data.flatMap charBytes

/-- Modelled from the spec: `crcHashMod`, the CRC-32 of the key reduced
modulo the cardinality (the source returns -1 for cardinality zero; that
value is never consulted, the scan loops being empty then, so zero is
returned here). -/
def crcHashMod (key : String) (cardinality : Nat) : Nat :=
  if cardinality = 0 then 0 else crc32 (utf8Bytes key) % cardinality

/-- Translation of `cacheObjects.hashIndex`: hash of `pathJoin(bucket,
object)` modulo the number of drive slots. -/
def hashIndex (cache : List (Option DCache)) (bucket object : String) : Nat :=
  crcHashMod (pathJoin bucket object) cache.length

/-- The circular scan of `getCacheLoc`, lines 341-349 of the source: the
loop variable `k` counts positions already visited, `steps` the positions
still to visit (`steps = numDisks - k`), and the examined slot is
`(index + k) % numDisks`; `nil` and offline slots are skipped, the first
online slot is returned. -/
def scanLoc (cache : List (Option DCache)) (index : Nat) : Nat → Nat → Option DCache
  | _, 0 => none
  | k, steps + 1 =>
    match cache.getD ((index + k) % cache.length) none with
    | none => scanLoc cache index (k + 1) steps
    | some d => if d.online then some d else scanLoc cache index (k + 1) steps

/-- Translation of `cacheObjects.getCacheLoc`: walk the drive slice as a
circular buffer starting at the hash index and return the first non-nil
online drive, `errDiskNotFound` when none qualifies. -/
def getCacheLoc (cache : List (Option DCache)) (bucket object : String) :
    Except CacheLocErr DCache :=
  match scanLoc cache (hashIndex cache bucket object) 0 cache.length with
  | some d => .ok d
  | none => .error .errDiskNotFound

/-- The circular scan of `getCacheToLoc`, lines 363-376 of the source, with
the `firstOnlineDisk` accumulator: online drives holding the object win
immediately; otherwise the first online drive seen is remembered and is the
result once the walk ends. -/
def scanToLoc (cache : List (Option DCache)) (bucket object : String) (index : Nat) :
    Nat → Nat → Option DCache → Option DCache
  | _, 0, firstOnlineDisk => firstOnlineDisk
  | k, steps + 1, firstOnlineDisk =>
    match cache.getD ((index + k) % cache.length) none with
    | none => scanToLoc cache bucket object index (k + 1) steps firstOnlineDisk
    | some d =>
      if d.online then
        let fo := match firstOnlineDisk with
          | none => some d
          | some f => some f
        if d.existsObj bucket object then some d
        else scanToLoc cache bucket object index (k + 1) steps fo
      else scanToLoc cache bucket object index (k + 1) steps firstOnlineDisk

/-- Translation of `cacheObjects.getCacheToLoc`: prefer the online drive on
which the object exists; fall back to the first online drive of the walk;
`errDiskNotFound` when no drive is online. -/
def getCacheToLoc (cache : List (Option DCache)) (bucket object : String) :
    Except CacheLocErr DCache :=
  match scanToLoc cache bucket object (hashIndex cache bucket object) 0 cache.length none with
  | some d => .ok d
  | none => .error .errDiskNotFound

/-- Translation of `cacheObjects.get`, lines 81-89: acquire a read lock on
the fingerprint, run `dcache.Get`, release on return; a failed acquisition
returns the lock error with no drive operation issued. -/
def cGet (de : DriveEnv) : Except ApiErr GetObjectReader × List Ev :=
  if de.rlockOk then (de.getRes, [Ev.lockRAcq, Ev.drvGet, Ev.lockRRel])
  else (.error .lockTimeout, [])

/-- Translation of `cacheObjects.stat`, lines 91-99: read-locked
`dcache.Stat`. -/
def cStat (de : DriveEnv) : Except ApiErr ObjectInfo × List Ev :=
  if de.rlockOk then (de.statRes, [Ev.lockRAcq, Ev.drvStat, Ev.lockRRel])
  else (.error .lockTimeout, [])

/-- Translation of `cacheObjects.delete`, lines 63-70: write-locked
`dcache.Delete`. -/
def cDelete (de : DriveEnv) : Option ApiErr × List Ev :=
  if de.wlockOk then (de.delRes, [Ev.lockWAcq, Ev.drvDelete, Ev.lockWRel])
  else (some .lockTimeout, [])

/-- Translation of `cacheObjects.put`, lines 72-79: write-locked
`dcache.Put`. -/
def cPut (de : DriveEnv) : Option ApiErr × List Ev :=
  if de.wlockOk then (de.putRes, [Ev.lockWAcq, Ev.drvPut, Ev.lockWRel])
  else (some .lockTimeout, [])

/-- Lines 197-241 of `GetObjectNInfo`: poke the purge channel when usage is
high, skip the fill when space is short, fill in the background for range
requests, otherwise tee the backend stream into `dcache.Put` through a pipe
(the put runs in a detached task, recorded as `spawnTeePut`). -/
def getNFill (hasRange : Bool) (be : BackendEnv) (de : DriveEnv) (objInfo : ObjectInfo)
    (t : List Ev) : Except ApiErr GetObjectReader × List Ev :=
  let t1 := t ++ (if de.usageLow then [] else [Ev.purgeSignal])
  if de.availFor objInfo.size = false then (be.getNInfoRes, t1 ++ [Ev.bkGetNInfo])
  else if hasRange then (be.getNInfoRes, t1 ++ [Ev.spawnRangeFill, Ev.bkGetNInfo])
  else
    match be.getNInfoRes with
    | .error e => (.error e, t1 ++ [Ev.bkGetNInfo])
    | .ok bkReader => (.ok bkReader, t1 ++ [Ev.bkGetNInfo, Ev.spawnTeePut])

/-- Lines 166-241 of `GetObjectNInfo`, entered after the cache probe:
revalidate against the backend's `GetObjectInfo`.  `cacheRdr` is the cached
reader when the probe succeeded (`cacheErr == nil`).  Backend down serves
the stale reader; `ObjectNotFound` closes the reader and deletes the entry
directly on the drive (`dcache.Delete`, line 175, without a namespace
lock); an uncacheable object falls through to the backend; an equal ETag
refreshes metadata (`dcache.updateMetadataIfChanged`, line 189) and serves
the cached reader; a changed ETag closes the reader, deletes through the
locked wrapper (line 194) and proceeds to the fill. -/
def getNRevalidate (hasRange : Bool) (be : BackendEnv) (de : DriveEnv)
    (cacheRdr : Option GetObjectReader) (t : List Ev) :
    Except ApiErr GetObjectReader × List Ev :=
  let t1 := t ++ [Ev.bkGetInfo]
  match be.getInfoRes with
  | .error e =>
    match cacheRdr with
    | some r =>
      if backendDownErr e then (.ok r, t1)
      else if e = .objectNotFound then
        (.error e, t1 ++ [Ev.readerClose, Ev.drvDelete])
      else (.error e, t1)
    | none => (.error e, t1)
  | .ok objInfo =>
    if objInfo.cacheable = false then (be.getNInfoRes, t1 ++ [Ev.bkGetNInfo])
    else
      match cacheRdr with
      | some r =>
        if r.objInfo.etag = objInfo.etag then
          (.ok r, t1 ++ [Ev.drvUpdateMeta objInfo r.objInfo])
        else
          getNFill hasRange be de objInfo (t1 ++ [Ev.readerClose] ++ (cDelete de).2)
      | none => getNFill hasRange be de objInfo t1

/-- Translation of `cacheObjects.GetObjectNInfo`, lines 146-242: admission
checks bypass to the backend, the router resolves a drive, the locked cache
probe runs, a fresh (by cache-control) hit is served directly, otherwise
revalidation proceeds. -/
def GetObjectNInfo (co : CacheObjects) (bucket object : String) (hasRange : Bool)
    (now : Nat) (be : BackendEnv) (de : DriveEnv) :
    Except ApiErr GetObjectReader × List Ev :=
  if isCacheExclude co.exclude bucket object || skipCache co then
    (be.getNInfoRes, [Ev.bkGetNInfo])
  else
    match getCacheToLoc co.cache bucket object with
    | .error _ => (be.getNInfoRes, [Ev.bkGetNInfo])
    | .ok _ =>
      let cres := cGet de
      match cres.1 with
      | .ok cacheReader =>
        let cc := cacheControlOpts cacheReader.objInfo
        if !cc.isEmpty && !cc.isStale cacheReader.objInfo.modTime now then
          (.ok cacheReader, cres.2)
        else getNRevalidate hasRange be de (some cacheReader) cres.2
      | .error _ => getNRevalidate hasRange be de none cres.2

/-- Lines 267-291 of `GetObjectInfo`, entered after the cache stat:
`ObjectNotFound` from the backend deletes the cached entry (locked wrapper,
line 271) and propagates; other non-backend-down errors propagate; backend
down serves the cached info when the stat succeeded and `BackendDown`
otherwise; with the backend up, a changed ETag deletes the cached entry and
the backend info is returned. -/
def giRevalidate (be : BackendEnv) (de : DriveEnv) (cached : Option ObjectInfo)
    (t : List Ev) : Except ApiErr ObjectInfo × List Ev :=
  let t1 := t ++ [Ev.bkGetInfo]
  match be.getInfoRes with
  | .error e =>
    if e = .objectNotFound then (.error e, t1 ++ (cDelete de).2)
    else if backendDownErr e = false then (.error e, t1)
    else
      match cached with
      | some coi => (.ok coi, t1)
      | none => (.error .backendDown, t1)
  | .ok objInfo =>
    match cached with
    | none => (.ok objInfo, t1)
    | some coi =>
      if coi.etag = objInfo.etag then (.ok objInfo, t1)
      else (.ok objInfo, t1 ++ (cDelete de).2)

/-- Translation of `cacheObjects.GetObjectInfo`, lines 245-292: admission
checks bypass to the backend, the router resolves a drive, the locked stat
runs, a fresh hit is returned directly, otherwise revalidation proceeds. -/
def GetObjectInfo (co : CacheObjects) (bucket object : String)
    (now : Nat) (be : BackendEnv) (de : DriveEnv) :
    Except ApiErr ObjectInfo × List Ev :=
  if isCacheExclude co.exclude bucket object || skipCache co then
    (be.getInfoRes, [Ev.bkGetInfo])
  else
    match getCacheToLoc co.cache bucket object with
    | .error _ => (be.getInfoRes, [Ev.bkGetInfo])
    | .ok _ =>
      let sres := cStat de
      match sres.1 with
      | .ok cachedObjInfo =>
        let cc := cacheControlOpts cachedObjInfo
        if !cc.isEmpty && !cc.isStale cachedObjInfo.modTime now then
          (.ok cachedObjInfo, sres.2)
        else giRevalidate be de (some cachedObjInfo) sres.2
      | .error _ => giRevalidate be de none sres.2

/-- Translation of `cacheObjects.DeleteObject`, lines 102-118: the backend
delete runs first and any error returns immediately with the cache
untouched; on success the admission checks, the router, and the `Exists`
probe decide whether the locked cache delete runs; the function's own
result is the backend's (then nil) error. -/
def DeleteObject (co : CacheObjects) (bucket object : String)
    (be : BackendEnv) (de : DriveEnv) : Option ApiErr × List Ev :=
  match be.deleteRes with
  | some e => (some e, [Ev.bkDelete])
  | none =>
    if isCacheExclude co.exclude bucket object || skipCache co then
      (none, [Ev.bkDelete])
    else
      match getCacheLoc co.cache bucket object with
      | .error _ => (none, [Ev.bkDelete])
      | .ok dcache =>
        if dcache.existsObj bucket object then
          (none, [Ev.bkDelete, Ev.drvExists] ++ (cDelete de).2)
        else (none, [Ev.bkDelete, Ev.drvExists])

/-- Translation of `cacheObjects.DeleteObjects`, lines 121-127: apply
`DeleteObject` to each object in input order, collect the per-object
errors, and return a nil overall error.  The environments are per-object
functions since each iteration reaches backend and drive afresh; the trace
is the concatenation of the per-object traces in input order. -/
def DeleteObjects (co : CacheObjects) (bucket : String) (objects : List String)
    (be : String → BackendEnv) (de : String → DriveEnv) :
    (List (Option ApiErr) × Option ApiErr) × List Ev :=
  ((objects.map fun o => (DeleteObject co bucket o (be o) (de o)).1, none),
    (objects.map fun o => (DeleteObject co bucket o (be o) (de o)).2).flatten)

/-- Translation of `cacheObjects.migrateCacheFromV1toV2`, lines 447-484:
every non-nil drive's migration runs (the source runs them in parallel and
joins on a wait group; the per-drive outcomes are the input function here),
errors are collected per slot, and the `migrating` flag is cleared under
`migMutex` exactly when no drive reported an error.  Returns the updated
state and the per-slot error vector. -/
def migrateCacheFromV1toV2 (co : CacheObjects)
    (migrateOldCacheRes : Nat → Option ApiErr) :
    CacheObjects × List (Option ApiErr) :=
  let errs := (List.range co.cache.length).map fun i =>
    match co.cache.getD i none with
    | none => none
    | some _ => migrateOldCacheRes i
  let errCnt := (errs.filter fun e => e.isSome).length
  (if errCnt > 0 then co else { co with migrating := false }, errs)

/-- Checker for the namespace-lock discipline of a trace, carrying the
numbers of read and write locks currently held: lock events move the
counters (a release without a matching acquisition fails), each drive
`Get`/`Stat` must run under exactly one held lock which is a read lock,
each drive `Put`/`Delete` under exactly one held lock which is the write
lock, and at the end of the trace every lock must have been released. -/
def wellLocked : List Ev → Nat → Nat → Bool
  | [], r, w => r == 0 && w == 0
  | Ev.lockRAcq :: t, r, w => wellLocked t (r + 1) w
  | Ev.lockRRel :: t, r + 1, w => wellLocked t r w
  | Ev.lockRRel :: _, 0, _ => false
  | Ev.lockWAcq :: t, r, w => wellLocked t r (w + 1)
  | Ev.lockWRel :: t, r, w + 1 => wellLocked t r w
  | Ev.lockWRel :: _, _, 0 => false
  | Ev.drvGet :: t, r, w => r == 1 && w == 0 && wellLocked t r w
  | Ev.drvStat :: t, r, w => r == 1 && w == 0 && wellLocked t r w
  | Ev.drvPut :: t, r, w => w == 1 && r == 0 && wellLocked t r w
  | Ev.drvDelete :: t, r, w => w == 1 && r == 0 && wellLocked t r w
  | _ :: t, r, w => wellLocked t r w

/-- A trace fragment is transparent when appending it to any prefix does
not affect the lock discipline: processed from any counter state, it
passes exactly when that state is the all-released one (this holds both
for fragments with no lock or drive events and for a self-contained
lock-framed fragment such as the locked delete wrapper's). -/
def Transparent (u : List Ev) : Prop :=
  ∀ r w : Nat, wellLocked u r w = (r == 0 && w == 0)

/-- Whether a slot of the drive slice holds a non-nil online drive. -/
def slotOnline (cache : List (Option DCache)) (i : Nat) : Bool :=
  match cache.getD i none with
  | none => false
  | some d => d.online

/-- Whether a slot holds a non-nil online drive on which the object exists. -/
def slotHit (cache : List (Option DCache)) (bucket object : String) (i : Nat) : Bool :=
  match cache.getD i none with
  | none => false
  | some d => d.online && d.existsObj bucket object

/-! Concrete sample values, used to evaluate the theorems on closed runs. -/

/-- Sample bucket name. -/
def bktB : String := "b"

/-- Sample object name. -/
def objB : String := "o"

/-- Sample upstream validator. -/
def etagA : String := "A"

/-- Sample drive holding the sample fingerprint. -/
def drvB : DCache := { did := 0, online := true, objs := [(bktB, objB)] }

/-- Sample coordinator state: one online drive, no exclusions, no
migration. -/
def coB : CacheObjects := { cache := [some drvB], exclude := [], migrating := false }

/-- Cache directives with a hundred-second max-age. -/
def ccFresh : cacheControl := { maxAge := some 100, expiry := none }

/-- Empty cache directives. -/
def ccNone : cacheControl := { maxAge := none, expiry := none }

/-- Cached object info that is fresh at time ten. -/
def infoFresh : ObjectInfo :=
  { etag := etagA, modTime := 0, size := 4096, cc := ccFresh, cacheable := true }

/-- Cached object info with no directives, hence always stale. -/
def infoStale : ObjectInfo :=
  { etag := etagA, modTime := 0, size := 4096, cc := ccNone, cacheable := true }

/-- Backend object info carrying the same validator. -/
def infoBk : ObjectInfo :=
  { etag := etagA, modTime := 5, size := 4096, cc := ccNone, cacheable := true }

/-- Cached reader over the fresh info. -/
def rdrFresh : GetObjectReader := { rid := 1, objInfo := infoFresh }

/-- Cached reader over the stale info. -/
def rdrStale : GetObjectReader := { rid := 1, objInfo := infoStale }

/-- Backend reader. -/
def bkRdr : GetObjectReader := { rid := 2, objInfo := infoBk }

/-- Drive outcomes for a fresh cache hit. -/
def deFresh : DriveEnv :=
  { rlockOk := true, wlockOk := true, getRes := .ok rdrFresh,
    statRes := .ok infoFresh, delRes := none, putRes := none,
    usageLow := true, availFor := fun _ => true }

/-- Drive outcomes for a stale cache hit. -/
def deStale : DriveEnv := { deFresh with getRes := .ok rdrStale, statRes := .ok infoStale }

/-- Drive outcomes for a cache miss. -/
def deMiss : DriveEnv :=
  { deFresh with getRes := .error (.other 0), statRes := .error (.other 0) }

/-- Backend outcomes with the object present and unchanged. -/
def beOk : BackendEnv := { getNInfoRes := .ok bkRdr, getInfoRes := .ok infoBk, deleteRes := none }

/-- Backend outcomes reporting the object deleted. -/
def beNF : BackendEnv := { beOk with getInfoRes := .error .objectNotFound }

/-- Backend outcomes with the backend unreachable. -/
def beDown : BackendEnv := { beOk with getInfoRes := .error .backendDown }

/-- Backend outcomes with a failing delete. -/
def beDelFail : BackendEnv := { beOk with deleteRes := some (.other 7) }

/-- Migrating coordinator with two non-nil drives. -/
def coMig : CacheObjects :=
  { cache := [some drvB, some { did := 1, online := true, objs := [] }],
    exclude := [], migrating := true }

/-- Per-drive migration outcomes in which drive zero succeeds and drive one
fails. -/
def resOneFail : Nat → Option ApiErr :=
  fun i => if i = 0 then none else some (.other 1)

/-- C1: a fresh-by-cache-control cache hit is served from the cache with no
backend involvement.  When the call is neither excluded nor during
migration, the router finds a drive, the locked probe succeeds, and the
entry's cache-control is non-empty and not stale, `GetObjectNInfo` returns
the cached reader and `GetObjectInfo` the cached info, and the full effect
trace is exactly the locked cache probe — in particular no `bkGetNInfo` or
`bkGetInfo` backend call occurs, so the outcome is independent of the
backend environment `be`. -/
theorem c1_fresh_hit_serves_cache
    (co : CacheObjects) (bucket object : String) (hasRange : Bool) (now : Nat)
    (be : BackendEnv) (de : DriveEnv) (d : DCache)
    (r : GetObjectReader) (oi : ObjectInfo)
    (hx : isCacheExclude co.exclude bucket object = false)
    (hm : skipCache co = false)
    (hloc : getCacheToLoc co.cache bucket object = .ok d)
    (hlk : de.rlockOk = true)
    (hget : de.getRes = .ok r)
    (hfreshN : (!(cacheControlOpts r.objInfo).isEmpty &&
      !(cacheControlOpts r.objInfo).isStale r.objInfo.modTime now) = true)
    (hstat : de.statRes = .ok oi)
    (hfreshI : (!(cacheControlOpts oi).isEmpty &&
      !(cacheControlOpts oi).isStale oi.modTime now) = true) :
    GetObjectNInfo co bucket object hasRange now be de =
      (.ok r, [Ev.lockRAcq, Ev.drvGet, Ev.lockRRel]) ∧
    GetObjectInfo co bucket object now be de =
      (.ok oi, [Ev.lockRAcq, Ev.drvStat, Ev.lockRRel]) := by
  constructor
  · simp [GetObjectNInfo, hx, hm, hloc, cGet, hlk, hget, hfreshN]
  · simp [GetObjectInfo, hx, hm, hloc, cStat, hlk, hstat, hfreshI]

/-- Closed instance of C1 at the sample state. -/
theorem c1_fresh_hit_serves_cache_witness :
    GetObjectNInfo coB bktB objB false 10 beOk deFresh =
      (.ok rdrFresh, [Ev.lockRAcq, Ev.drvGet, Ev.lockRRel]) ∧
    GetObjectInfo coB bktB objB 10 beOk deFresh =
      (.ok infoFresh, [Ev.lockRAcq, Ev.drvStat, Ev.lockRRel]) :=
  c1_fresh_hit_serves_cache coB bktB objB false 10 beOk deFresh drvB rdrFresh infoFresh
    (by decide) (by decide) (by decide) (by decide) (by decide) (by decide)
    (by decide) (by decide)

/-- C2: a stale hit whose revalidation returns a matching ETag is served
from the cache after a metadata refresh.  Under the usual admission
conditions, with a successful but stale cache probe, a successful backend
`GetObjectInfo` of a cacheable object whose ETag equals the cached
reader's, the call returns the cached reader and its trace is exactly the
locked probe, the backend info call, and `updateMetadataIfChanged` with the
new and old infos — no `bkGetNInfo` body transfer occurs. -/
theorem c2_stale_etag_match_serves_cache
    (co : CacheObjects) (bucket object : String) (hasRange : Bool) (now : Nat)
    (be : BackendEnv) (de : DriveEnv) (d : DCache)
    (r : GetObjectReader) (oi : ObjectInfo)
    (hx : isCacheExclude co.exclude bucket object = false)
    (hm : skipCache co = false)
    (hloc : getCacheToLoc co.cache bucket object = .ok d)
    (hlk : de.rlockOk = true)
    (hget : de.getRes = .ok r)
    (hstale : (!(cacheControlOpts r.objInfo).isEmpty &&
      !(cacheControlOpts r.objInfo).isStale r.objInfo.modTime now) = false)
    (hbk : be.getInfoRes = .ok oi)
    (hca : oi.cacheable = true)
    (hetag : r.objInfo.etag = oi.etag) :
    GetObjectNInfo co bucket object hasRange now be de =
      (.ok r, [Ev.lockRAcq, Ev.drvGet, Ev.lockRRel, Ev.bkGetInfo,
        Ev.drvUpdateMeta oi r.objInfo]) := by
  simp [GetObjectNInfo, getNRevalidate, hx, hm, hloc, cGet, hlk, hget, hstale,
    hbk, hca, hetag]

/-- Closed instance of C2 at the sample state. -/
theorem c2_stale_etag_match_serves_cache_witness :
    GetObjectNInfo coB bktB objB false 10 beOk deStale =
      (.ok rdrStale, [Ev.lockRAcq, Ev.drvGet, Ev.lockRRel, Ev.bkGetInfo,
        Ev.drvUpdateMeta infoBk infoStale]) :=
  c2_stale_etag_match_serves_cache coB bktB objB false 10 beOk deStale drvB rdrStale infoBk
    (by decide) (by decide) (by decide) (by decide) (by decide) (by decide)
    (by decide) (by decide) (by decide)

/-- C3: a backend `ObjectNotFound` is authoritative.  In `GetObjectNInfo`,
when the cache probe succeeded (and the entry was not fresh, else no
backend call happens), the cached reader is closed, the entry is deleted,
and the error propagates; on a cache miss the error propagates with no
deletion.  In `GetObjectInfo` the cached entry is deleted through the
locked wrapper — both when the stat succeeded (stale entry) and when it
failed — and the error propagates. -/
theorem c3_not_found_deletes_and_propagates :
    (∀ (co : CacheObjects) (bucket object : String) (hasRange : Bool) (now : Nat)
      (be : BackendEnv) (de : DriveEnv) (d : DCache) (r : GetObjectReader),
      isCacheExclude co.exclude bucket object = false →
      skipCache co = false →
      getCacheToLoc co.cache bucket object = .ok d →
      de.rlockOk = true →
      de.getRes = .ok r →
      (!(cacheControlOpts r.objInfo).isEmpty &&
        !(cacheControlOpts r.objInfo).isStale r.objInfo.modTime now) = false →
      be.getInfoRes = .error .objectNotFound →
      GetObjectNInfo co bucket object hasRange now be de =
        (.error .objectNotFound, [Ev.lockRAcq, Ev.drvGet, Ev.lockRRel, Ev.bkGetInfo,
          Ev.readerClose, Ev.drvDelete])) ∧
    (∀ (co : CacheObjects) (bucket object : String) (hasRange : Bool) (now : Nat)
      (be : BackendEnv) (de : DriveEnv) (d : DCache) (ce : ApiErr),
      isCacheExclude co.exclude bucket object = false →
      skipCache co = false →
      getCacheToLoc co.cache bucket object = .ok d →
      (cGet de).1 = .error ce →
      be.getInfoRes = .error .objectNotFound →
      GetObjectNInfo co bucket object hasRange now be de =
        (.error .objectNotFound, (cGet de).2 ++ [Ev.bkGetInfo])) ∧
    (∀ (co : CacheObjects) (bucket object : String) (now : Nat)
      (be : BackendEnv) (de : DriveEnv) (d : DCache) (oi : ObjectInfo),
      isCacheExclude co.exclude bucket object = false →
      skipCache co = false →
      getCacheToLoc co.cache bucket object = .ok d →
      de.rlockOk = true →
      de.statRes = .ok oi →
      (!(cacheControlOpts oi).isEmpty &&
        !(cacheControlOpts oi).isStale oi.modTime now) = false →
      be.getInfoRes = .error .objectNotFound →
      GetObjectInfo co bucket object now be de =
        (.error .objectNotFound,
          [Ev.lockRAcq, Ev.drvStat, Ev.lockRRel, Ev.bkGetInfo] ++ (cDelete de).2)) ∧
    (∀ (co : CacheObjects) (bucket object : String) (now : Nat)
      (be : BackendEnv) (de : DriveEnv) (d : DCache) (ce : ApiErr),
      isCacheExclude co.exclude bucket object = false →
      skipCache co = false →
      getCacheToLoc co.cache bucket object = .ok d →
      (cStat de).1 = .error ce →
      be.getInfoRes = .error .objectNotFound →
      GetObjectInfo co bucket object now be de =
        (.error .objectNotFound, (cStat de).2 ++ [Ev.bkGetInfo] ++ (cDelete de).2)) := by
  refine ⟨?_, ?_, ?_, ?_⟩
  · intro co bucket object hasRange now be de d r hx hm hloc hlk hget hstale hbk
    simp [GetObjectNInfo, getNRevalidate, hx, hm, hloc, cGet, hlk, hget, hstale, hbk,
      backendDownErr]
  · intro co bucket object hasRange now be de d ce hx hm hloc hmiss hbk
    simp [GetObjectNInfo, getNRevalidate, hx, hm, hloc, hmiss, hbk, backendDownErr]
  · intro co bucket object now be de d oi hx hm hloc hlk hstat hstale hbk
    simp [GetObjectInfo, giRevalidate, hx, hm, hloc, cStat, hlk, hstat, hstale, hbk]
  · intro co bucket object now be de d ce hx hm hloc hmiss hbk
    simp [GetObjectInfo, giRevalidate, hx, hm, hloc, hmiss, hbk]

/-- Closed instance of C3 at the sample state, covering all four cases. -/
theorem c3_not_found_deletes_and_propagates_witness :
    GetObjectNInfo coB bktB objB false 10 beNF deStale =
      (.error .objectNotFound, [Ev.lockRAcq, Ev.drvGet, Ev.lockRRel, Ev.bkGetInfo,
        Ev.readerClose, Ev.drvDelete]) ∧
    GetObjectNInfo coB bktB objB false 10 beNF deMiss =
      (.error .objectNotFound, (cGet deMiss).2 ++ [Ev.bkGetInfo]) ∧
    GetObjectInfo coB bktB objB 10 beNF deStale =
      (.error .objectNotFound,
        [Ev.lockRAcq, Ev.drvStat, Ev.lockRRel, Ev.bkGetInfo] ++ (cDelete deStale).2) ∧
    GetObjectInfo coB bktB objB 10 beNF deMiss =
      (.error .objectNotFound, (cStat deMiss).2 ++ [Ev.bkGetInfo] ++ (cDelete deMiss).2) :=
  ⟨c3_not_found_deletes_and_propagates.1 coB bktB objB false 10 beNF deStale drvB rdrStale
      (by decide) (by decide) (by decide) (by decide) (by decide) (by decide) (by decide),
   c3_not_found_deletes_and_propagates.2.1 coB bktB objB false 10 beNF deMiss drvB (.other 0)
      (by decide) (by decide) (by decide) (by decide) (by decide),
   c3_not_found_deletes_and_propagates.2.2.1 coB bktB objB 10 beNF deStale drvB infoStale
      (by decide) (by decide) (by decide) (by decide) (by decide) (by decide) (by decide),
   c3_not_found_deletes_and_propagates.2.2.2 coB bktB objB 10 beNF deMiss drvB (.other 0)
      (by decide) (by decide) (by decide) (by decide) (by decide)⟩

/-- C4: a backend-down failure degrades to the cache.  `GetObjectNInfo`
returns the cached reader whenever the cache probe succeeded (fresh or
stale), `GetObjectInfo` returns the cached info whenever the stat
succeeded, and when the stat failed `GetObjectInfo` returns the
`BackendDown` error. -/
theorem c4_backend_down_serves_stale :
    (∀ (co : CacheObjects) (bucket object : String) (hasRange : Bool) (now : Nat)
      (be : BackendEnv) (de : DriveEnv) (d : DCache) (r : GetObjectReader),
      isCacheExclude co.exclude bucket object = false →
      skipCache co = false →
      getCacheToLoc co.cache bucket object = .ok d →
      de.rlockOk = true →
      de.getRes = .ok r →
      be.getInfoRes = .error .backendDown →
      (GetObjectNInfo co bucket object hasRange now be de).1 = .ok r) ∧
    (∀ (co : CacheObjects) (bucket object : String) (now : Nat)
      (be : BackendEnv) (de : DriveEnv) (d : DCache) (oi : ObjectInfo),
      isCacheExclude co.exclude bucket object = false →
      skipCache co = false →
      getCacheToLoc co.cache bucket object = .ok d →
      de.rlockOk = true →
      de.statRes = .ok oi →
      be.getInfoRes = .error .backendDown →
      (GetObjectInfo co bucket object now be de).1 = .ok oi) ∧
    (∀ (co : CacheObjects) (bucket object : String) (now : Nat)
      (be : BackendEnv) (de : DriveEnv) (d : DCache) (ce : ApiErr),
      isCacheExclude co.exclude bucket object = false →
      skipCache co = false →
      getCacheToLoc co.cache bucket object = .ok d →
      (cStat de).1 = .error ce →
      be.getInfoRes = .error .backendDown →
      (GetObjectInfo co bucket object now be de).1 = .error .backendDown) := by
  refine ⟨?_, ?_, ?_⟩
  · intro co bucket object hasRange now be de d r hx hm hloc hlk hget hbk
    by_cases hf : (!(cacheControlOpts r.objInfo).isEmpty &&
      !(cacheControlOpts r.objInfo).isStale r.objInfo.modTime now) = true
    · simp [GetObjectNInfo, hx, hm, hloc, cGet, hlk, hget, hf]
    · have hf' := Bool.eq_false_iff.mpr hf
      simp [GetObjectNInfo, getNRevalidate, hx, hm, hloc, cGet, hlk, hget, hf', hbk,
        backendDownErr]
  · intro co bucket object now be de d oi hx hm hloc hlk hstat hbk
    by_cases hf : (!(cacheControlOpts oi).isEmpty &&
      !(cacheControlOpts oi).isStale oi.modTime now) = true
    · simp [GetObjectInfo, hx, hm, hloc, cStat, hlk, hstat, hf]
    · have hf' := Bool.eq_false_iff.mpr hf
      simp [GetObjectInfo, giRevalidate, hx, hm, hloc, cStat, hlk, hstat, hf', hbk,
        backendDownErr]
  · intro co bucket object now be de d ce hx hm hloc hmiss hbk
    simp [GetObjectInfo, giRevalidate, hx, hm, hloc, hmiss, hbk, backendDownErr]

/-- Closed instance of C4 at the sample state, covering all three cases. -/
theorem c4_backend_down_serves_stale_witness :
    (GetObjectNInfo coB bktB objB false 10 beDown deStale).1 = .ok rdrStale ∧
    (GetObjectInfo coB bktB objB 10 beDown deStale).1 = .ok infoStale ∧
    (GetObjectInfo coB bktB objB 10 beDown deMiss).1 = .error .backendDown :=
  ⟨c4_backend_down_serves_stale.1 coB bktB objB false 10 beDown deStale drvB rdrStale
      (by decide) (by decide) (by decide) (by decide) (by decide) (by decide),
   c4_backend_down_serves_stale.2.1 coB bktB objB 10 beDown deStale drvB infoStale
      (by decide) (by decide) (by decide) (by decide) (by decide) (by decide),
   c4_backend_down_serves_stale.2.2 coB bktB objB 10 beDown deMiss drvB (.other 0)
      (by decide) (by decide) (by decide) (by decide) (by decide)⟩

/-- C8: `DeleteObject` is backend-first.  A failing backend delete returns
that error with a trace containing no cache operation at all; a successful
backend delete under an admission exclusion (or migration) returns nil
having touched no cache state; a successful backend delete always returns
nil; and on the non-excluded path with a located drive holding the object
the locked cache delete runs after the backend delete. -/
theorem c8_delete_backend_first :
    (∀ (co : CacheObjects) (bucket object : String) (be : BackendEnv) (de : DriveEnv)
      (e : ApiErr),
      be.deleteRes = some e →
      DeleteObject co bucket object be de = (some e, [Ev.bkDelete])) ∧
    (∀ (co : CacheObjects) (bucket object : String) (be : BackendEnv) (de : DriveEnv),
      be.deleteRes = none →
      (isCacheExclude co.exclude bucket object || skipCache co) = true →
      DeleteObject co bucket object be de = (none, [Ev.bkDelete])) ∧
    (∀ (co : CacheObjects) (bucket object : String) (be : BackendEnv) (de : DriveEnv),
      be.deleteRes = none →
      (DeleteObject co bucket object be de).1 = none) ∧
    (∀ (co : CacheObjects) (bucket object : String) (be : BackendEnv) (de : DriveEnv)
      (d : DCache),
      be.deleteRes = none →
      isCacheExclude co.exclude bucket object = false →
      skipCache co = false →
      getCacheLoc co.cache bucket object = .ok d →
      d.existsObj bucket object = true →
      DeleteObject co bucket object be de =
        (none, [Ev.bkDelete, Ev.drvExists] ++ (cDelete de).2)) := by
  refine ⟨?_, ?_, ?_, ?_⟩
  · intro co bucket object be de e hdel
    simp [DeleteObject, hdel]
  · intro co bucket object be de hdel hx
    simp [DeleteObject, hdel, hx]
  · intro co bucket object be de hdel
    simp only [DeleteObject, hdel]
    split
    · rfl
    · split
      · rfl
      · split <;> rfl
  · intro co bucket object be de d hdel hx hm hloc hex
    simp [DeleteObject, hdel, hx, hm, hloc, hex]

/-- Closed instance of C8 at the sample state, covering all four cases. -/
theorem c8_delete_backend_first_witness :
    DeleteObject coB bktB objB beDelFail deFresh = (some (.other 7), [Ev.bkDelete]) ∧
    DeleteObject { coB with migrating := true } bktB objB beOk deFresh =
      (none, [Ev.bkDelete]) ∧
    (DeleteObject coB bktB objB beOk deFresh).1 = none ∧
    DeleteObject coB bktB objB beOk deFresh =
      (none, [Ev.bkDelete, Ev.drvExists] ++ (cDelete deFresh).2) :=
  ⟨c8_delete_backend_first.1 coB bktB objB beDelFail deFresh (.other 7) (by decide),
   c8_delete_backend_first.2.1 { coB with migrating := true } bktB objB beOk deFresh
      (by decide) (by decide),
   c8_delete_backend_first.2.2.1 coB bktB objB beOk deFresh (by decide),
   c8_delete_backend_first.2.2.2 coB bktB objB beOk deFresh drvB (by decide) (by decide)
      (by decide) (by decide) (by decide)⟩

/-- C10: `DeleteObjects` returns one error slot per input object, the i-th
slot being exactly the result of `DeleteObject` on the i-th object, its
overall error is always nil, and the effect trace is the concatenation of
the per-object `DeleteObject` traces in input order. -/
theorem c10_delete_objects_pointwise
    (co : CacheObjects) (bucket : String) (objects : List String)
    (be : String → BackendEnv) (de : String → DriveEnv) :
    (DeleteObjects co bucket objects be de).1.1.length = objects.length ∧
    (∀ i, i < objects.length →
      (DeleteObjects co bucket objects be de).1.1[i]? =
        (objects[i]?).map fun o => (DeleteObject co bucket o (be o) (de o)).1) ∧
    (DeleteObjects co bucket objects be de).1.2 = none ∧
    (DeleteObjects co bucket objects be de).2 =
      (objects.map fun o => (DeleteObject co bucket o (be o) (de o)).2).flatten := by
  refine ⟨by simp [DeleteObjects], ?_, rfl, rfl⟩
  intro i _
  simp [DeleteObjects]

/-- Closed instance of C10 on a two-object batch. -/
theorem c10_delete_objects_pointwise_witness :
    (DeleteObjects coB bktB [objB, bktB] (fun _ => beOk) (fun _ => deFresh)).1.1.length = 2 ∧
    (DeleteObjects coB bktB [objB, bktB] (fun _ => beOk) (fun _ => deFresh)).1.1[0]? =
      some (DeleteObject coB bktB objB beOk deFresh).1 ∧
    (DeleteObjects coB bktB [objB, bktB] (fun _ => beOk) (fun _ => deFresh)).1.1[1]? =
      some (DeleteObject coB bktB bktB beOk deFresh).1 ∧
    (DeleteObjects coB bktB [objB, bktB] (fun _ => beOk) (fun _ => deFresh)).1.2 = none := by
  have h := c10_delete_objects_pointwise coB bktB [objB, bktB]
    (fun _ => beOk) (fun _ => deFresh)
  refine ⟨h.1, ?_, ?_, h.2.2.1⟩
  · have h0 := h.2.1 0 (by decide)
    simpa using h0
  · have h1 := h.2.1 1 (by decide)
    simpa using h1

/-- C9 counterexample: a run of `migrateCacheFromV1toV2` in which every
per-drive migration finishes — drive zero successfully, drive one with an
error — yet the `migrating` flag is not cleared, so `skipCache` still
returns true afterwards, contradicting the claim that the flag is cleared
when all per-drive migrations finish. -/
theorem c9_error_keeps_migrating_counterexample :
    (migrateCacheFromV1toV2 coMig resOneFail).2 = [none, some (.other 1)] ∧
    skipCache (migrateCacheFromV1toV2 coMig resOneFail).1 = true := by
  constructor <;> decide

/-- C9 as amended: while migration is in progress every request bypasses
the cache (both reads go straight to the backend with no cache effect);
when every non-nil drive's migration finishes without error the flag is
cleared so `skipCache` returns false; when any non-nil drive's migration
fails the state is returned unchanged, so the flag remains set; and each
drive's migration outcome is recorded from its own result alone, so one
drive's error does not block the others from completing. -/
theorem c9_migration_gate_amended :
    (∀ (co : CacheObjects) (bucket object : String) (hasRange : Bool) (now : Nat)
      (be : BackendEnv) (de : DriveEnv),
      skipCache co = true →
      GetObjectNInfo co bucket object hasRange now be de = (be.getNInfoRes, [Ev.bkGetNInfo]) ∧
      GetObjectInfo co bucket object now be de = (be.getInfoRes, [Ev.bkGetInfo])) ∧
    (∀ (co : CacheObjects) (res : Nat → Option ApiErr),
      (∀ i, i < co.cache.length → co.cache.getD i none ≠ none → res i = none) →
      skipCache (migrateCacheFromV1toV2 co res).1 = false) ∧
    (∀ (co : CacheObjects) (res : Nat → Option ApiErr) (i : Nat) (d : DCache),
      i < co.cache.length → co.cache.getD i none = some d → (res i).isSome = true →
      (migrateCacheFromV1toV2 co res).1 = co) ∧
    (∀ (co : CacheObjects) (res : Nat → Option ApiErr) (i : Nat),
      i < co.cache.length →
      (migrateCacheFromV1toV2 co res).2[i]? =
        some (match co.cache.getD i none with
          | none => none
          | some _ => res i)) := by
  refine ⟨?_, ?_, ?_, ?_⟩
  · intro co bucket object hasRange now be de hm
    constructor
    · simp [GetObjectNInfo, hm]
    · simp [GetObjectInfo, hm]
  · intro co res hall
    have herrs : ∀ e ∈ (List.range co.cache.length).map (fun i =>
        match co.cache.getD i none with
        | none => none
        | some _ => res i), e = (none : Option ApiErr) := by
      intro e he
      rcases List.mem_map.mp he with ⟨i, hi, rfl⟩
      have hi' := List.mem_range.mp hi
      rcases hg : co.cache.getD i none with _ | d
      · rfl
      · exact hall i hi' (by intro h; rw [hg] at h; exact Option.noConfusion h)
    have hnil : ((List.range co.cache.length).map (fun i =>
        match co.cache.getD i none with
        | none => none
        | some _ => res i)).filter (fun e => e.isSome) = [] := by
      rw [List.filter_eq_nil_iff]
      intro e he
      rw [herrs e he]
      simp
    simp only [migrateCacheFromV1toV2, skipCache]
    rw [hnil]
    simp
  · intro co res i d hi hg hsome
    have hmem : res i ∈ (List.range co.cache.length).map (fun i =>
        match co.cache.getD i none with
        | none => none
        | some _ => res i) :=
      List.mem_map.mpr ⟨i, List.mem_range.mpr hi, by rw [hg]⟩
    have hne : ((List.range co.cache.length).map (fun i =>
        match co.cache.getD i none with
        | none => none
        | some _ => res i)).filter (fun e => e.isSome) ≠ [] := by
      intro h
      exact (List.filter_eq_nil_iff.mp h _ hmem) hsome
    have hpos : 0 < (((List.range co.cache.length).map (fun i =>
        match co.cache.getD i none with
        | none => none
        | some _ => res i)).filter (fun e => e.isSome)).length :=
      List.length_pos.mpr hne
    simp only [migrateCacheFromV1toV2]
    rw [if_pos hpos]
  · intro co res i hi
    simp [migrateCacheFromV1toV2, List.getElem?_map, List.getElem?_range, hi]

/-- Closed instance of the amended C9: a migrating coordinator bypasses the
cache; an all-success migration clears the flag; the sample failing
migration leaves the state unchanged; and the sample failing run still
records drive zero's successful outcome in its slot. -/
theorem c9_migration_gate_amended_witness :
    GetObjectNInfo coMig bktB objB false 10 beOk deFresh =
      (beOk.getNInfoRes, [Ev.bkGetNInfo]) ∧
    skipCache (migrateCacheFromV1toV2 coMig (fun _ => none)).1 = false ∧
    (migrateCacheFromV1toV2 coMig resOneFail).1 = coMig ∧
    (migrateCacheFromV1toV2 coMig resOneFail).2[0]? = some none := by
  refine ⟨(c9_migration_gate_amended.1 coMig bktB objB false 10 beOk deFresh (by decide)).1,
    c9_migration_gate_amended.2.1 coMig (fun _ => none) (fun i _ _ => rfl), ?_, ?_⟩
  · exact c9_migration_gate_amended.2.2.1 coMig resOneFail 1
      { did := 1, online := true, objs := [] } (by decide) (by decide) (by decide)
  · have h := c9_migration_gate_amended.2.2.2 coMig resOneFail 0 (by decide)
    simpa using h

/-- C5 counterexample: a concrete `GetObjectNInfo` run — stale cache hit,
backend answering `ObjectNotFound` — whose trace performs the cache
deletion (`dcache.Delete`, source line 175) outside any namespace lock:
the trace fails the lock-discipline checker, refuting the claim that every
coordinator-issued drive delete is framed by a namespace lock. -/
theorem c5_unlocked_delete_counterexample :
    (GetObjectNInfo coB bktB objB false 10 beNF deStale).2 =
      [Ev.lockRAcq, Ev.drvGet, Ev.lockRRel, Ev.bkGetInfo, Ev.readerClose, Ev.drvDelete] ∧
    wellLocked (GetObjectNInfo coB bktB objB false 10 beNF deStale).2 0 0 = false := by
  constructor <;> decide

/-- Appending a transparent fragment to a trace does not change the
verdict of the lock-discipline checker, from any starting counters. -/
theorem wellLocked_append_transparent (u : List Ev) :
    ∀ (t : List Ev) (r w : Nat), Transparent u →
      wellLocked (t ++ u) r w = wellLocked t r w := by
  intro t
  induction t with
  | nil =>
    intro r w hu
    rw [List.nil_append, hu r w]
    rfl
  | cons h t ih =>
    intro r w hu
    have ih' := fun r w => ih r w hu
    cases h <;> cases r <;> cases w <;> simp_all [wellLocked]

/-- The locked delete wrapper's trace is transparent: it acquires and
releases its own write lock and its delete runs exactly under it. -/
theorem transparent_cDelete (de : DriveEnv) : Transparent (cDelete de).2 := by
  cases hw : de.wlockOk <;> intro r w <;> simp only [cDelete, hw] <;>
    cases r <;> cases w <;> simp [wellLocked]

/-- The fill tail of `GetObjectNInfo` adds only purge pokes, backend calls
and spawned tasks to the trace, so it never affects the lock discipline. -/
theorem getNFill_wellLocked (hasRange : Bool) (be : BackendEnv) (de : DriveEnv)
    (oi : ObjectInfo) (t : List Ev) (r w : Nat) :
    wellLocked (getNFill hasRange be de oi t).2 r w = wellLocked t r w := by
  unfold getNFill
  cases hu : de.usageLow <;> cases ha : de.availFor oi.size <;> cases hasRange <;>
    rcases hbe : be.getNInfoRes with e | rd <;>
      simp only [hu, ha, hbe, Bool.false_eq_true, Bool.true_eq_false, if_true, if_false,
        ite_true, ite_false, List.append_assoc, List.append_nil, List.nil_append,
        List.cons_append, reduceIte] <;>
      exact wellLocked_append_transparent _ t r w (fun _ _ => rfl)

/-- The revalidation tail of `GetObjectNInfo` preserves the lock
discipline of its trace prefix as long as the backend does not report
`ObjectNotFound` (the excluded case performs an unframed drive delete). -/
theorem getNRevalidate_wellLocked (hasRange : Bool) (be : BackendEnv) (de : DriveEnv)
    (cacheRdr : Option GetObjectReader) (t : List Ev)
    (hnf : be.getInfoRes ≠ .error .objectNotFound) (r w : Nat) :
    wellLocked (getNRevalidate hasRange be de cacheRdr t).2 r w = wellLocked t r w := by
  unfold getNRevalidate
  rcases hbe : be.getInfoRes with e | oi
  · rcases cacheRdr with _ | rr
    · simp only [hbe]
      exact wellLocked_append_transparent _ t r w (fun _ _ => rfl)
    · have hne : ¬e = ApiErr.objectNotFound := by
        intro h
        rw [h] at hbe
        exact hnf hbe
      by_cases hbd : backendDownErr e = true
      · simp only [hbe, hbd, if_true]
        exact wellLocked_append_transparent _ t r w (fun _ _ => rfl)
      · simp only [hbe, hbd, hne, if_false, if_true, ite_false, ite_true, reduceIte]
        exact wellLocked_append_transparent _ t r w (fun _ _ => rfl)
  · rcases hca : oi.cacheable with _ | _
    · simp only [hbe, hca, if_true, reduceIte, List.append_assoc, List.cons_append,
        List.nil_append]
      exact wellLocked_append_transparent _ t r w (fun _ _ => rfl)
    · rcases cacheRdr with _ | rr
      · simp only [hbe, hca, Bool.true_eq_false, if_false, reduceIte]
        rw [getNFill_wellLocked]
        exact wellLocked_append_transparent _ t r w (fun _ _ => rfl)
      · by_cases het : rr.objInfo.etag = oi.etag
        · simp only [hbe, hca, het, Bool.true_eq_false, if_false, if_true, ite_true,
            reduceIte, List.append_assoc, List.cons_append, List.nil_append]
          exact wellLocked_append_transparent _ t r w (fun _ _ => rfl)
        · simp only [hbe, hca, het, Bool.true_eq_false, if_false, ite_false, reduceIte]
          rw [getNFill_wellLocked,
            wellLocked_append_transparent _ _ _ _ (transparent_cDelete de),
            List.append_assoc]
          exact wellLocked_append_transparent _ t r w (fun _ _ => rfl)

/-- C5 as amended: every drive Get, Stat, Put, and Delete issued through
the coordinator's locking wrappers (`c.get`, `c.stat`, `c.put`,
`c.delete`) is framed by exactly one namespace lock of the proper mode and
the lock is released on every exit path; every run of `GetObjectInfo` —
including its cache deletions — satisfies the lock discipline; and so does
every run of `GetObjectNInfo` except when the backend reports
`ObjectNotFound`, in which case the cached entry (if any) is deleted
directly on the drive without a lock. -/
theorem c5_lock_framing_amended :
    (∀ de : DriveEnv,
      wellLocked (cGet de).2 0 0 = true ∧ wellLocked (cStat de).2 0 0 = true ∧
      wellLocked (cDelete de).2 0 0 = true ∧ wellLocked (cPut de).2 0 0 = true) ∧
    (∀ (co : CacheObjects) (bucket object : String) (now : Nat)
      (be : BackendEnv) (de : DriveEnv),
      wellLocked (GetObjectInfo co bucket object now be de).2 0 0 = true) ∧
    (∀ (co : CacheObjects) (bucket object : String) (hasRange : Bool) (now : Nat)
      (be : BackendEnv) (de : DriveEnv),
      be.getInfoRes ≠ .error .objectNotFound →
      wellLocked (GetObjectNInfo co bucket object hasRange now be de).2 0 0 = true) := by
  refine ⟨?_, ?_, ?_⟩
  · intro de
    cases hr : de.rlockOk <;> cases hw : de.wlockOk <;>
      simp [cGet, cStat, cDelete, cPut, hr, hw, wellLocked]
  · intro co bucket object now be de
    cases hr : de.rlockOk <;> cases hw : de.wlockOk <;>
      simp only [GetObjectInfo, giRevalidate, cStat, cDelete, hr, hw] <;>
      repeat' split
    all_goals simp_all [wellLocked]
  · intro co bucket object hasRange now be de hnf
    unfold GetObjectNInfo
    split
    · rfl
    · split
      · rfl
      · cases hr : de.rlockOk
        · simp only [cGet, hr, Bool.false_eq_true, if_false, ite_false, reduceIte]
          rw [getNRevalidate_wellLocked _ _ _ _ _ hnf]
          rfl
        · simp only [cGet, hr, if_true, ite_true]
          rcases hg : de.getRes with e | rr
          · rw [getNRevalidate_wellLocked _ _ _ _ _ hnf]
            rfl
          · cases hf : (!(cacheControlOpts rr.objInfo).isEmpty &&
              !(cacheControlOpts rr.objInfo).isStale rr.objInfo.modTime now)
            · simp only [hf, Bool.false_eq_true, if_false, ite_false, reduceIte]
              rw [getNRevalidate_wellLocked _ _ _ _ _ hnf]
              rfl
            · simp only [hf, if_true, ite_true]
              rfl

/-- Closed instance of the amended C5 at the sample state. -/
theorem c5_lock_framing_amended_witness :
    wellLocked (cGet deStale).2 0 0 = true ∧
    wellLocked (GetObjectInfo coB bktB objB 10 beNF deStale).2 0 0 = true ∧
    wellLocked (GetObjectNInfo coB bktB objB false 10 beDown deStale).2 0 0 = true :=
  ⟨(c5_lock_framing_amended.1 deStale).1,
   c5_lock_framing_amended.2.1 coB bktB objB 10 beNF deStale,
   c5_lock_framing_amended.2.2 coB bktB objB false 10 beDown deStale (by decide)⟩

/-- The write-placement scan returns `none` when every slot of the window
it examines is nil or offline. -/
theorem scanLoc_all_offline (cache : List (Option DCache)) (index : Nat) :
    ∀ (steps k : Nat),
      (∀ j, j < steps → slotOnline cache ((index + k + j) % cache.length) = false) →
      scanLoc cache index k steps = none := by
  intro steps
  induction steps with
  | zero => intro k _; rfl
  | succ n ih =>
    intro k h
    have h0 := h 0 n.succ_pos
    rw [Nat.add_zero] at h0
    unfold slotOnline at h0
    unfold scanLoc
    rcases hg : cache.getD ((index + k) % cache.length) none with _ | d
    · exact ih (k + 1) (fun j hj => by
        have hs := h (j + 1) (Nat.succ_lt_succ hj)
        rwa [show index + k + (j + 1) = index + (k + 1) + j from by omega] at hs)
    · rw [hg] at h0
      have h0' : d.online = false := h0
      simp only [h0', Bool.false_eq_true, if_false, ite_false, reduceIte]
      exact ih (k + 1) (fun j hj => by
        have hs := h (j + 1) (Nat.succ_lt_succ hj)
        rwa [show index + k + (j + 1) = index + (k + 1) + j from by omega] at hs)

/-- The write-placement scan returns the drive of the first non-nil online
slot of its circular walk. -/
theorem scanLoc_first_online (cache : List (Option DCache)) (index : Nat) :
    ∀ (steps k m : Nat) (d : DCache), m < steps →
      cache.getD ((index + k + m) % cache.length) none = some d →
      d.online = true →
      (∀ j, j < m → slotOnline cache ((index + k + j) % cache.length) = false) →
      scanLoc cache index k steps = some d := by
  intro steps
  induction steps with
  | zero => intro k m d hm; exact absurd hm (Nat.not_lt_zero m)
  | succ n ih =>
    intro k m d hm hg ho hprev
    unfold scanLoc
    rcases m with _ | m'
    · rw [Nat.add_zero] at hg
      rw [hg]
      simp [ho]
    · have h0 := hprev 0 (Nat.succ_pos m')
      rw [Nat.add_zero] at h0
      unfold slotOnline at h0
      have hg' : cache.getD ((index + (k + 1) + m') % cache.length) none = some d := by
        rwa [show index + (k + 1) + m' = index + k + (m' + 1) from by omega]
      have hprev' : ∀ j, j < m' →
          slotOnline cache ((index + (k + 1) + j) % cache.length) = false := by
        intro j hj
        have hs := hprev (j + 1) (Nat.succ_lt_succ hj)
        rwa [show index + k + (j + 1) = index + (k + 1) + j from by omega] at hs
      rcases hgk : cache.getD ((index + k) % cache.length) none with _ | d0
      · exact ih (k + 1) m' d (Nat.lt_of_succ_lt_succ hm) hg' ho hprev'
      · rw [hgk] at h0
        have h0' : d0.online = false := h0
        simp only [h0', Bool.false_eq_true, if_false, ite_false, reduceIte]
        exact ih (k + 1) m' d (Nat.lt_of_succ_lt_succ hm) hg' ho hprev'

/-- C6: `getCacheLoc` is the deterministic hash-then-walk placement.  With
`index = crcHashMod (pathJoin bucket object) (number of slots)`, the walk
visits positions `index + k (mod N)` for increasing `k` and returns the
drive of the first position holding a non-nil online drive; when no slot
holds a non-nil online drive it returns `errDiskNotFound`.  Being a plain
function of the drive slice and the fingerprint, the result is the same on
every call with equal state. -/
theorem c6_get_cache_loc_hash_walk :
    (∀ (cache : List (Option DCache)) (bucket object : String) (k : Nat) (d : DCache),
      k < cache.length →
      cache.getD ((hashIndex cache bucket object + k) % cache.length) none = some d →
      d.online = true →
      (∀ j, j < k →
        slotOnline cache ((hashIndex cache bucket object + j) % cache.length) = false) →
      getCacheLoc cache bucket object = .ok d) ∧
    (∀ (cache : List (Option DCache)) (bucket object : String),
      (∀ i, i < cache.length → slotOnline cache i = false) →
      getCacheLoc cache bucket object = .error .errDiskNotFound) := by
  constructor
  · intro cache bucket object k d hk hg ho hprev
    unfold getCacheLoc
    rw [scanLoc_first_online cache (hashIndex cache bucket object) cache.length 0 k d hk
      (by rwa [show hashIndex cache bucket object + 0 + k =
        hashIndex cache bucket object + k from by omega]) ho
      (fun j hj => by
        have hs := hprev j hj
        rwa [show hashIndex cache bucket object + j =
          hashIndex cache bucket object + 0 + j from by omega] at hs)]
  · intro cache bucket object h
    unfold getCacheLoc
    rw [scanLoc_all_offline cache (hashIndex cache bucket object) cache.length 0
      (fun j hj => by
        rcases Nat.eq_zero_or_pos cache.length with hz | hpos
        · omega
        · exact h _ (Nat.mod_lt _ hpos))]

/-- Closed instance of C6: on a slice whose hash slot is offline, the walk
settles on the next online slot; on an all-offline slice the router
reports `errDiskNotFound`. -/
theorem c6_get_cache_loc_hash_walk_witness :
    getCacheLoc [some { did := 0, online := false, objs := [] }, some drvB] bktB objB =
      .ok drvB ∧
    getCacheLoc [some { did := 0, online := false, objs := [] }, none] bktB objB =
      .error .errDiskNotFound :=
  ⟨c6_get_cache_loc_hash_walk.1 [some { did := 0, online := false, objs := [] }, some drvB]
      bktB objB 1 drvB (by decide) (by decide) (by decide)
      (fun j hj => by
        interval_cases j
        all_goals decide),
   c6_get_cache_loc_hash_walk.2 [some { did := 0, online := false, objs := [] }, none]
      bktB objB (fun i hi => by
        have hi2 : i < 2 := by simpa using hi
        interval_cases i <;> decide)⟩

/-- The read-placement scan hands back its accumulator when every slot of
the window is nil or offline. -/
theorem scanToLoc_all_offline (cache : List (Option DCache)) (bucket object : String)
    (index : Nat) :
    ∀ (steps k : Nat) (fo : Option DCache),
      (∀ j, j < steps → slotOnline cache ((index + k + j) % cache.length) = false) →
      scanToLoc cache bucket object index k steps fo = fo := by
  intro steps
  induction steps with
  | zero => intro k fo _; rfl
  | succ n ih =>
    intro k fo h
    have h0 := h 0 n.succ_pos
    rw [Nat.add_zero] at h0
    unfold slotOnline at h0
    unfold scanToLoc
    have hshift : ∀ j, j < n →
        slotOnline cache ((index + (k + 1) + j) % cache.length) = false := by
      intro j hj
      have hs := h (j + 1) (Nat.succ_lt_succ hj)
      rwa [show index + k + (j + 1) = index + (k + 1) + j from by omega] at hs
    rcases hg : cache.getD ((index + k) % cache.length) none with _ | d
    · exact ih (k + 1) fo hshift
    · rw [hg] at h0
      have h0' : d.online = false := h0
      simp only [h0', Bool.false_eq_true, if_false, ite_false, reduceIte]
      exact ih (k + 1) fo hshift

/-- Whatever the accumulator, the read-placement scan returns the drive of
the first online slot that contains the object. -/
theorem scanToLoc_first_hit (cache : List (Option DCache)) (bucket object : String)
    (index : Nat) :
    ∀ (steps k m : Nat) (d : DCache) (fo : Option DCache), m < steps →
      cache.getD ((index + k + m) % cache.length) none = some d →
      d.online = true → d.existsObj bucket object = true →
      (∀ j, j < m → slotHit cache bucket object ((index + k + j) % cache.length) = false) →
      scanToLoc cache bucket object index k steps fo = some d := by
  intro steps
  induction steps with
  | zero => intro k m d fo hm; exact absurd hm (Nat.not_lt_zero m)
  | succ n ih =>
    intro k m d fo hm hg ho he hprev
    unfold scanToLoc
    rcases m with _ | m'
    · rw [Nat.add_zero] at hg
      rw [hg]
      simp [ho, he]
    · have h0 := hprev 0 (Nat.succ_pos m')
      rw [Nat.add_zero] at h0
      unfold slotHit at h0
      have hg' : cache.getD ((index + (k + 1) + m') % cache.length) none = some d := by
        rwa [show index + (k + 1) + m' = index + k + (m' + 1) from by omega]
      have hprev' : ∀ j, j < m' →
          slotHit cache bucket object ((index + (k + 1) + j) % cache.length) = false := by
        intro j hj
        have hs := hprev (j + 1) (Nat.succ_lt_succ hj)
        rwa [show index + k + (j + 1) = index + (k + 1) + j from by omega] at hs
      rcases hgk : cache.getD ((index + k) % cache.length) none with _ | d0
      · exact ih (k + 1) m' d fo (Nat.lt_of_succ_lt_succ hm) hg' ho he hprev'
      · rw [hgk] at h0
        have h0' : (d0.online && d0.existsObj bucket object) = false := h0
        rcases hon : d0.online with _ | _
        · simp only [hon, Bool.false_eq_true, if_false, ite_false, reduceIte]
          exact ih (k + 1) m' d fo (Nat.lt_of_succ_lt_succ hm) hg' ho he hprev'
        · have hex : d0.existsObj bucket object = false := by simpa [hon] using h0'
          simp only [hon, hex, Bool.false_eq_true, if_true, if_false, ite_true, ite_false,
            reduceIte]
          exact ih (k + 1) m' d _ (Nat.lt_of_succ_lt_succ hm) hg' ho he hprev'

/-- When no slot of the window is an online hit, the scan keeps an
already-recorded first online drive to the end. -/
theorem scanToLoc_keep (cache : List (Option DCache)) (bucket object : String)
    (index : Nat) :
    ∀ (steps k : Nat) (f : DCache),
      (∀ j, j < steps → slotHit cache bucket object ((index + k + j) % cache.length) = false) →
      scanToLoc cache bucket object index k steps (some f) = some f := by
  intro steps
  induction steps with
  | zero => intro k f _; rfl
  | succ n ih =>
    intro k f h
    have h0 := h 0 n.succ_pos
    rw [Nat.add_zero] at h0
    unfold slotHit at h0
    unfold scanToLoc
    have hshift : ∀ j, j < n →
        slotHit cache bucket object ((index + (k + 1) + j) % cache.length) = false := by
      intro j hj
      have hs := h (j + 1) (Nat.succ_lt_succ hj)
      rwa [show index + k + (j + 1) = index + (k + 1) + j from by omega] at hs
    rcases hg : cache.getD ((index + k) % cache.length) none with _ | d0
    · exact ih (k + 1) f hshift
    · rw [hg] at h0
      have h0' : (d0.online && d0.existsObj bucket object) = false := h0
      rcases hon : d0.online with _ | _
      · simp only [hon, Bool.false_eq_true, if_false, ite_false, reduceIte]
        exact ih (k + 1) f hshift
      · have hex : d0.existsObj bucket object = false := by simpa [hon] using h0'
        simp only [hon, hex, Bool.false_eq_true, if_true, if_false, ite_true, ite_false,
          reduceIte]
        exact ih (k + 1) f hshift

/-- With no online hit anywhere in the window and an empty accumulator,
the scan returns the drive of the first non-nil online slot. -/
theorem scanToLoc_first_online (cache : List (Option DCache)) (bucket object : String)
    (index : Nat) :
    ∀ (steps k m : Nat) (d : DCache), m < steps →
      (∀ j, j < steps → slotHit cache bucket object ((index + k + j) % cache.length) = false) →
      cache.getD ((index + k + m) % cache.length) none = some d →
      d.online = true →
      (∀ j, j < m → slotOnline cache ((index + k + j) % cache.length) = false) →
      scanToLoc cache bucket object index k steps none = some d := by
  intro steps
  induction steps with
  | zero => intro k m d hm; exact absurd hm (Nat.not_lt_zero m)
  | succ n ih =>
    intro k m d hm hhits hg ho hprev
    unfold scanToLoc
    have hhits' : ∀ j, j < n →
        slotHit cache bucket object ((index + (k + 1) + j) % cache.length) = false := by
      intro j hj
      have hs := hhits (j + 1) (Nat.succ_lt_succ hj)
      rwa [show index + k + (j + 1) = index + (k + 1) + j from by omega] at hs
    rcases m with _ | m'
    · have hh0 := hhits 0 n.succ_pos
      rw [Nat.add_zero] at hh0 hg
      unfold slotHit at hh0
      rw [hg] at hh0
      have hh0' : (d.online && d.existsObj bucket object) = false := hh0
      have hex : d.existsObj bucket object = false := by simpa [ho] using hh0'
      rw [hg]
      simp only [ho, hex, Bool.false_eq_true, if_true, if_false, ite_true, ite_false,
        reduceIte]
      exact scanToLoc_keep cache bucket object index n (k + 1) d hhits'
    · have h0 := hprev 0 (Nat.succ_pos m')
      rw [Nat.add_zero] at h0
      unfold slotOnline at h0
      have hg' : cache.getD ((index + (k + 1) + m') % cache.length) none = some d := by
        rwa [show index + (k + 1) + m' = index + k + (m' + 1) from by omega]
      have hprev' : ∀ j, j < m' →
          slotOnline cache ((index + (k + 1) + j) % cache.length) = false := by
        intro j hj
        have hs := hprev (j + 1) (Nat.succ_lt_succ hj)
        rwa [show index + k + (j + 1) = index + (k + 1) + j from by omega] at hs
      rcases hgk : cache.getD ((index + k) % cache.length) none with _ | d0
      · exact ih (k + 1) m' d (Nat.lt_of_succ_lt_succ hm) hhits' hg' ho hprev'
      · rw [hgk] at h0
        have h0' : d0.online = false := h0
        simp only [h0', Bool.false_eq_true, if_false, ite_false, reduceIte]
        exact ih (k + 1) m' d (Nat.lt_of_succ_lt_succ hm) hhits' hg' ho hprev'

/-- C7: `getCacheToLoc` prefers the drive holding the object.  Walking
circularly from the hash index, it returns the drive of the first online
slot on which the object exists; if no online slot contains the object it
returns the first online drive met in the walk (the re-cache target
closest to the hash index); and with no online drive at all it returns
`errDiskNotFound`. -/
theorem c7_get_cache_to_loc_affinity :
    (∀ (cache : List (Option DCache)) (bucket object : String) (m : Nat) (d : DCache),
      m < cache.length →
      cache.getD ((hashIndex cache bucket object + m) % cache.length) none = some d →
      d.online = true → d.existsObj bucket object = true →
      (∀ j, j < m →
        slotHit cache bucket object
          ((hashIndex cache bucket object + j) % cache.length) = false) →
      getCacheToLoc cache bucket object = .ok d) ∧
    (∀ (cache : List (Option DCache)) (bucket object : String) (m : Nat) (d : DCache),
      (∀ i, i < cache.length → slotHit cache bucket object i = false) →
      m < cache.length →
      cache.getD ((hashIndex cache bucket object + m) % cache.length) none = some d →
      d.online = true →
      (∀ j, j < m →
        slotOnline cache ((hashIndex cache bucket object + j) % cache.length) = false) →
      getCacheToLoc cache bucket object = .ok d) ∧
    (∀ (cache : List (Option DCache)) (bucket object : String),
      (∀ i, i < cache.length → slotOnline cache i = false) →
      getCacheToLoc cache bucket object = .error .errDiskNotFound) := by
  refine ⟨?_, ?_, ?_⟩
  · intro cache bucket object m d hm hg ho he hprev
    unfold getCacheToLoc
    rw [scanToLoc_first_hit cache bucket object (hashIndex cache bucket object)
      cache.length 0 m d none hm
      (by rwa [show hashIndex cache bucket object + 0 + m =
        hashIndex cache bucket object + m from by omega]) ho he
      (fun j hj => by
        have hs := hprev j hj
        rwa [show hashIndex cache bucket object + j =
          hashIndex cache bucket object + 0 + j from by omega] at hs)]
  · intro cache bucket object m d hnohit hm hg ho hprev
    have hpos : 0 < cache.length := Nat.lt_of_le_of_lt (Nat.zero_le m) hm
    unfold getCacheToLoc
    rw [scanToLoc_first_online cache bucket object (hashIndex cache bucket object)
      cache.length 0 m d hm
      (fun j _ => hnohit _ (Nat.mod_lt _ hpos))
      (by rwa [show hashIndex cache bucket object + 0 + m =
        hashIndex cache bucket object + m from by omega]) ho
      (fun j hj => by
        have hs := hprev j hj
        rwa [show hashIndex cache bucket object + j =
          hashIndex cache bucket object + 0 + j from by omega] at hs)]
  · intro cache bucket object h
    unfold getCacheToLoc
    rw [scanToLoc_all_offline cache bucket object (hashIndex cache bucket object)
      cache.length 0 none
      (fun j hj => by
        rcases Nat.eq_zero_or_pos cache.length with hz | hpos
        · omega
        · exact h _ (Nat.mod_lt _ hpos))]

/-- Closed instance of C7: affinity override on slot one past an online
non-holder, fallback to the first online drive when no drive holds the
object, and `errDiskNotFound` with no online drive. -/
theorem c7_get_cache_to_loc_affinity_witness :
    getCacheToLoc [some { did := 9, online := true, objs := [] }, some drvB] bktB objB =
      .ok drvB ∧
    getCacheToLoc [none, some { did := 9, online := true, objs := [] }] bktB objB =
      .ok { did := 9, online := true, objs := [] } ∧
    getCacheToLoc [some { did := 0, online := false, objs := [] }, none] bktB objB =
      .error .errDiskNotFound :=
  ⟨c7_get_cache_to_loc_affinity.1 [some { did := 9, online := true, objs := [] }, some drvB]
      bktB objB 1 drvB (by decide) (by decide) (by decide) (by decide)
      (fun j hj => by
        interval_cases j
        all_goals decide),
   c7_get_cache_to_loc_affinity.2.1 [none, some { did := 9, online := true, objs := [] }]
      bktB objB 1 { did := 9, online := true, objs := [] }
      (fun i hi => by
        have hi2 : i < 2 := by simpa using hi
        interval_cases i <;> decide)
      (by decide) (by decide) (by decide)
      (fun j hj => by
        interval_cases j
        all_goals decide),
   c7_get_cache_to_loc_affinity.2.2 [some { did := 0, online := false, objs := [] }, none]
      bktB objB (fun i hi => by
        have hi2 : i < 2 := by simpa using hi
        interval_cases i <;> decide)⟩

end MinioCache
